import Mathlib

/-
  Shallow embedding of src/app.py (ProductsService): a CRUD HTTP service over a
  Product table with a UnitMeasure foreign key, five resource handlers and a
  uniform response envelope.  Database rows are modelled as lists of records,
  the scoped session as explicit state passing, and Python exceptions as an
  Except value threaded through the try/except wrapper of each handler.
-/

namespace ProductsService

/-- A single quote character, used inside the message templates. -/
def squote : String := String.singleton (Char.ofNat 39)

/-- Row of the unit_measures table (class UnitMeasure, src/app.py lines 24-28). -/
structure UnitMeasure where
  id : Int
  name : String
deriving DecidableEq, Repr

/-- Row of the products table (class Product, src/app.py lines 31-39).
    The price column is Float in the source; it is only ever stored and
    echoed back, never computed with, so it is modelled by Rat. -/
structure Product where
  id : Int
  name : String
  price : Rat
  unit_measure_id : Int
deriving DecidableEq, Repr

/-- Database state: the two tables plus the primary-key sequence that
    generates the next product id on insert. -/
structure DB where
  unit_measures : List UnitMeasure
  products : List Product
  nextProductId : Int
deriving DecidableEq, Repr

/-- Serialized unit measure (UnitMeasureSchema, src/app.py lines 42-44). -/
structure UnitMeasureView where
  id : Int
  name : String
deriving DecidableEq, Repr

/-- Serialized product (ProductSchema, src/app.py lines 47-52): the four
    columns plus the nested unit_measures relationship. -/
structure ProductView where
  id : Int
  name : String
  price : Rat
  unit_measure_id : Int
  unit_measures : Option UnitMeasureView
deriving DecidableEq, Repr

/-- Resolution of the Product.unit_measures relationship: the unit_measures
    row whose primary key equals the foreign key. -/
def lookupUnitMeasure (db : DB) (umId : Int) : Option UnitMeasure :=
  db.unit_measures.find? (fun u => u.id == umId)

/-- UnitMeasureSchema().dump. -/
def dumpUnitMeasure (u : UnitMeasure) : UnitMeasureView :=
  { id := u.id, name := u.name }

/-- ProductSchema().dump: the columns plus the nested relationship resolved
    against the database. -/
def dumpProduct (db : DB) (p : Product) : ProductView :=
  { id := p.id
  , name := p.name
  , price := p.price
  , unit_measure_id := p.unit_measure_id
  , unit_measures := (lookupUnitMeasure db p.unit_measure_id).map dumpUnitMeasure }

/-- messages["RecordFound"] after .format(resource=...), src/app.py line 59. -/
def messagesRecordFound (resource : String) : String :=
  "The " ++ resource ++ " has been found successfully"

/-- messages["RecordCreated"] after .format(resource=...), src/app.py line 60. -/
def messagesRecordCreated (resource : String) : String :=
  "The " ++ resource ++ " has been created successfully"

/-- messages["RecordUpdated"] after .format(resource=..., id=...), src/app.py line 61. -/
def messagesRecordUpdated (resource : String) (id : Int) : String :=
  "The " ++ resource ++ " with id " ++ squote ++ toString id ++ squote
    ++ " has been updated successfully"

/-- messages["RecordDeleted"] after .format(resource=..., id=...), src/app.py
    line 62.  The template in the source reads {id}has with no space between
    the closing quote and the word has; the concatenation below reproduces
    that faithfully. -/
def messagesRecordDeleted (resource : String) (id : Int) : String :=
  "The " ++ resource ++ " with id " ++ squote ++ toString id ++ squote
    ++ "has been deleted successfully"

/-- messages["RecordNotFound"] after .format(resource=..., id=...), src/app.py line 63. -/
def messagesRecordNotFound (resource : String) (id : Int) : String :=
  "The " ++ resource ++ " with id " ++ squote ++ toString id ++ squote
    ++ " has not been found"

/-- Body of the plain response envelope (MakeResponse, src/app.py lines 182-195). -/
structure ResponseBody where
  status : String
  code : Int
  message : String
  error : Option String
  data : Option ProductView
deriving DecidableEq, Repr

/-- Body of the paginated response envelope (MakeResponsePaginate,
    src/app.py lines 198-206). -/
structure ResponseBodyPaginate where
  status : String
  code : Int
  message : String
  error : Option String
  data : List ProductView
  total_records : Nat
deriving DecidableEq, Repr

/-- MakeResponse (src/app.py lines 182-195).  The Python defaults
    data=None, status_code=200, error=None are spelled out at each call
    site below, exactly as the keyword-argument calls in the source elide
    them. -/
def MakeResponse (message : String) (data : Option ProductView) (status_code : Int)
    (error : Option String) : ResponseBody :=
  let status : String :=
    if status_code = 400 then "BadRequest"
    else if status_code = 500 then "InternalServerError"
    else "OK"
  { status := status, code := status_code, message := message, error := error, data := data }

/-- MakeResponsePaginate (src/app.py lines 198-206). -/
def MakeResponsePaginate (message : String) (data : List ProductView)
    (totalRecords : Nat) : ResponseBodyPaginate :=
  { status := "OK", code := 200, message := message, error := none
  , data := data, total_records := totalRecords }

/-- Python exceptions that the embedded handlers can raise.  keyError is the
    class caught by the bare except clause; integrityError is raised by the
    database layer when the flush violates the unique name constraint
    (src/app.py line 35) or the unit_measures foreign key (line 37);
    invalidRequestError is raised by the ORM bulk update when a key of its
    values dict is not a mapped column; attributeError is raised by the
    .get call on app.current_request.query_params when the request has no
    query string at all, in which case that attribute is None rather than a
    dict. -/
inductive PyExn where
  | keyError
  | integrityError
  | invalidRequestError
  | attributeError
deriving DecidableEq, Repr

/-- Outcome of one handler invocation: a plain envelope, a paginated
    envelope, the raw exception object returned by the except-KeyError
    branch, or an exception that escapes the handler uncaught. -/
inductive HandlerResult where
  | response (r : ResponseBody)
  | paginate (r : ResponseBodyPaginate)
  | returnedExc (e : PyExn)
  | raised (e : PyExn)
deriving DecidableEq, Repr

/-- True exactly when the result is one of the two envelope shapes. -/
def isEnvelopeB : HandlerResult → Bool
  | .response _ => true
  | .paginate _ => true
  | .returnedExc _ => false
  | .raised _ => false

/-- The try/except KeyError wrapper common to the mutating handlers: a body
    that completes yields its envelope and its database state; a KeyError is
    returned as the raw exception object (return e); any other exception
    escapes, and the scoped session is closed without commit, leaving the
    database unchanged. -/
def tryExceptKeyError (db : DB) (body : Except PyExn (DB × ResponseBody)) :
    DB × HandlerResult :=
  match body with
  | .ok (db2, r) => (db2, .response r)
  | .error PyExn.keyError => (db, .returnedExc PyExn.keyError)
  | .error e => (db, .raised e)

/-- Does pat occur at the head of s. -/
def firstMatches : List Char → List Char → Bool
  | [], _ => true
  | _ :: _, [] => false
  | a :: as, b :: bs => a == b && firstMatches as bs

/-- Does pat occur anywhere in s. -/
def occursIn (pat : List Char) : List Char → Bool
  | [] => firstMatches pat []
  | b :: bs => firstMatches pat (b :: bs) || occursIn pat bs

/-- SQL LIKE with the pattern %search% (Product.name.like in src/app.py
    lines 79 and 81): the name is a match when search occurs in it as a
    contiguous substring; the empty search is a match for every name. -/
def likeContains (search name : String) : Bool :=
  occursIn search.data name.data

/-- The rows produced by session.query(Product).filter(Product.name.like(%search%)). -/
def matchingProducts (db : DB) (search : String) : List Product :=
  db.products.filter (fun p => likeContains search p.name)

/-- The for loop of indexProducts (src/app.py lines 79-81): the accumulator
    carries the products list and totalRecords, which starts at 0 and is
    overwritten with the count query result once per iteration. -/
def indexLoop (db : DB) (matchedRows : List Product) :
    List Product → List ProductView × Nat → List ProductView × Nat
  | [], acc => acc
  | data :: rest, acc =>
      indexLoop db matchedRows rest (acc.1 ++ [dumpProduct db data], matchedRows.length)

/-- The paginated body built by indexProducts (src/app.py lines 69-86) when
    the request carries a query parameter dict: each of offset, limit and
    search is read by query_params.get with defaults 0, 10 and the empty
    string; the page is the offset/limit slice of the matching rows; the
    loop serializes the page and recomputes the total count inside each
    iteration. -/
def indexProductsResponse (db : DB) (offsetParam limitParam : Option Nat)
    (searchParam : Option String) : ResponseBodyPaginate :=
  let offset := offsetParam.getD 0
  let limit := limitParam.getD 10
  let search := searchParam.getD ""
  let matchedRows := matchingProducts db search
  let page := (matchedRows.drop offset).take limit
  let loopResult := indexLoop db matchedRows page ([], 0)
  MakeResponsePaginate (messagesRecordFound "products") loopResult.1 loopResult.2

/-- The query parameter dict of a GET /products request that has a query
    string: each of the three parameters is individually present or
    absent. -/
structure QueryParams where
  offset : Option Nat
  limit : Option Nat
  search : Option String
deriving DecidableEq, Repr

/-- Handler GET /products (indexProducts, src/app.py lines 69-88).  The
    Chalice request attribute query_params is a dict when the request has a
    query string and None when it has none at all; in the latter case the
    .get call at line 72 raises AttributeError, which the except KeyError
    clause does not catch, so the handler terminates with the uncaught
    exception and returns no envelope.  When the dict is present no
    statement of the body raises KeyError, so the except branch is dead and
    the result is the paginated envelope. -/
def indexProducts (db : DB) (queryParams : Option QueryParams) : HandlerResult :=
  match queryParams with
  | none => .raised PyExn.attributeError
  | some qp => .paginate (indexProductsResponse db qp.offset qp.limit qp.search)

/-- Handler GET /product/{id} (showProduct, src/app.py lines 91-108):
    first matching row or the 400 not-found envelope.  No statement of its
    body raises KeyError, so the except branch is dead. -/
def showProduct (db : DB) (id : Int) : HandlerResult :=
  match db.products.find? (fun p => p.id == id) with
  | none =>
      .response (MakeResponse (messagesRecordNotFound "product" id) none 400 none)
  | some data =>
      .response (MakeResponse (messagesRecordFound "product") (some (dumpProduct db data)) 200 none)

/-- JSON body of POST /product and PUT /product/{id}: name, price and
    unit_measure_id as read by json_body.get in src/app.py. -/
structure ProductPayload where
  name : String
  price : Rat
  unit_measure_id : Int
deriving DecidableEq, Repr

/-- session.add followed by session.flush for a new product (src/app.py
    lines 122-123): the INSERT assigns the next primary key, and the
    database layer raises IntegrityError when the unique constraint on
    products.name (line 35) or the foreign key to unit_measures (line 37)
    is violated. -/
def sessionFlushAdd (db : DB) (name : String) (umId : Int) : Except PyExn Int :=
  if db.products.any (fun p => p.name == name) then .error PyExn.integrityError
  else if (lookupUnitMeasure db umId).isNone then .error PyExn.integrityError
  else .ok db.nextProductId

/-- Body of POST /product inside the try block (storeProduct, src/app.py
    lines 111-130): build the row, flush (generating the id), serialize it
    and commit. -/
def storeProductBody (db : DB) (json_body : ProductPayload) :
    Except PyExn (DB × ResponseBody) :=
  match sessionFlushAdd db json_body.name json_body.unit_measure_id with
  | .error e => .error e
  | .ok newId =>
    let product : Product :=
      { id := newId
      , name := json_body.name
      , price := json_body.price
      , unit_measure_id := json_body.unit_measure_id }
    let db2 : DB :=
      { db with products := db.products ++ [product], nextProductId := db.nextProductId + 1 }
    .ok (db2, MakeResponse (messagesRecordCreated "product") (some (dumpProduct db2 product)) 200 none)

/-- Handler POST /product (storeProduct, src/app.py lines 111-132). -/
def storeProduct (db : DB) (json_body : ProductPayload) : DB × HandlerResult :=
  tryExceptKeyError db (storeProductBody db json_body)

/-- The column attributes of the Product mapping (src/app.py lines 34-37). -/
def productColumnNames : List String :=
  ["id", "name", "price", "unit_measure_id"]

/-- The field names of ProductSchema (src/app.py lines 47-52): the columns
    plus the nested unit_measures relationship, which is what
    ProductSchema().dump serializes. -/
def productSchemaFieldNames : List String :=
  ["id", "name", "price", "unit_measure_id", "unit_measures"]

/-- Modelled collaborator behavior of the ORM bulk update
    session.query(Product).where(...).update(values): every key of the
    values dict must resolve to a mapped column attribute of Product; any
    other key, such as the unit_measures relationship, makes the call
    raise instead of emitting an UPDATE. -/
def bulkUpdateKeysOk (keys : List String) : Bool :=
  keys.all (fun k => productColumnNames.contains k)

/-- Body of PUT /product/{id} inside the try block (updateProduct,
    src/app.py lines 135-157): look up the row, assign the three fields in
    memory, serialize the row with ProductSchema (whose field set is
    productSchemaFieldNames), then pass the serialized dict to the
    query-level update; the update raises because the dict carries the
    non-column key unit_measures, and otherwise would overwrite the row
    and commit. -/
def updateProductBody (db : DB) (id : Int) (json_body : ProductPayload) :
    Except PyExn (DB × ResponseBody) :=
  match db.products.find? (fun p => p.id == id) with
  | none =>
      .ok (db, MakeResponse (messagesRecordNotFound "product" id) none 400 none)
  | some product0 =>
    let product1 : Product :=
      { product0 with
        name := json_body.name,
        price := json_body.price,
        unit_measure_id := json_body.unit_measure_id }
    let dumped := dumpProduct db product1
    if bulkUpdateKeysOk productSchemaFieldNames then
      let db2 : DB :=
        { db with products := db.products.map (fun p => if p.id == id then product1 else p) }
      .ok (db2, MakeResponse (messagesRecordUpdated "product" id) (some dumped) 200 none)
    else .error PyExn.invalidRequestError

/-- Handler PUT /product/{id} (updateProduct, src/app.py lines 135-159). -/
def updateProduct (db : DB) (id : Int) (json_body : ProductPayload) : DB × HandlerResult :=
  tryExceptKeyError db (updateProductBody db id json_body)

/-- Handler DELETE /product/{id} (destroyProduct, src/app.py lines
    162-179): look up the row, then delete every row matching the id and
    commit.  No statement of its body raises KeyError, so the except branch
    is dead. -/
def destroyProduct (db : DB) (id : Int) : DB × HandlerResult :=
  match db.products.find? (fun p => p.id == id) with
  | none =>
      (db, .response (MakeResponse (messagesRecordNotFound "product" id) none 400 none))
  | some _ =>
    let db2 : DB := { db with products := db.products.filter (fun p => ! (p.id == id)) }
    (db2, .response (MakeResponse (messagesRecordDeleted "product" id) none 200 none))

/-- Sample unit measure for concrete witnesses. -/
def um1 : UnitMeasure := { id := 1, name := "kg" }

/-- Sample product for concrete witnesses. -/
def productA : Product := { id := 1, name := "A", price := 2, unit_measure_id := 1 }

/-- Database holding one unit measure and one product. -/
def dbOne : DB := { unit_measures := [um1], products := [productA], nextProductId := 2 }

/-- Database holding one unit measure and no products. -/
def dbEmpty : DB := { unit_measures := [um1], products := [], nextProductId := 1 }

/-- The products list built by the loop of indexProducts is the serialized page
    appended to the accumulator. -/
theorem indexLoop_fst (db : DB) (m : List Product) (page : List Product) :
    ∀ acc : List ProductView × Nat,
      (indexLoop db m page acc).1 = acc.1 ++ page.map (dumpProduct db) := by
  induction page with
  | nil => intro acc; simp [indexLoop]
  | cons d rest ih => intro acc; simp [indexLoop, ih]

/-- The totalRecords value built by the loop of indexProducts keeps its initial
    value on an empty page and is the total match count otherwise. -/
theorem indexLoop_snd (db : DB) (m : List Product) (page : List Product) :
    ∀ acc : List ProductView × Nat,
      (indexLoop db m page acc).2 = if page.isEmpty then acc.2 else m.length := by
  induction page with
  | nil => intro acc; simp [indexLoop]
  | cons d rest ih => intro acc; simp [indexLoop, ih]

/-- The serialized update payload carries the relationship key, which the ORM
    bulk update rejects. -/
theorem bulkUpdateKeysOk_schemaFields :
    bulkUpdateKeysOk productSchemaFieldNames = false := by decide

/-- The RecordCreated message for the product resource. -/
theorem messagesRecordCreated_product :
    messagesRecordCreated "product" = "The product has been created successfully" := rfl

/-- C3: for every call to MakeResponse the result carries code equal to the
    given status_code, the given message, error and data unchanged, and a
    status label of OK for 200, BadRequest for 400 and InternalServerError
    for 500. -/
theorem C3_MakeResponse_contract (message : String) (data : Option ProductView)
    (status_code : Int) (error : Option String) :
    (MakeResponse message data status_code error).code = status_code ∧
    (MakeResponse message data status_code error).message = message ∧
    (MakeResponse message data status_code error).error = error ∧
    (MakeResponse message data status_code error).data = data ∧
    (status_code = 200 → (MakeResponse message data status_code error).status = "OK") ∧
    (status_code = 400 → (MakeResponse message data status_code error).status = "BadRequest") ∧
    (status_code = 500 →
      (MakeResponse message data status_code error).status = "InternalServerError") := by
  refine ⟨rfl, rfl, rfl, rfl, ?_, ?_, ?_⟩ <;> intro h <;> subst h <;> simp [MakeResponse]

/-- C3 witness: the contract applied at a concrete 500 call. -/
theorem C3_witness : (MakeResponse "m" none 500 none).status = "InternalServerError" :=
  (C3_MakeResponse_contract "m" none 500 none).2.2.2.2.2.2 rfl

/-- C10: for every status_code other than 400 and 500 the status label of the
    MakeResponse envelope is the literal string OK. -/
theorem C10_status_OK_otherwise (message : String) (data : Option ProductView)
    (status_code : Int) (error : Option String)
    (h4 : status_code ≠ 400) (h5 : status_code ≠ 500) :
    (MakeResponse message data status_code error).status = "OK" := by
  simp [MakeResponse, h4, h5]

/-- C10 witness: a 201 response is labelled OK. -/
theorem C10_witness : (MakeResponse "m" none 201 none).status = "OK" :=
  C10_status_OK_otherwise "m" none 201 none (by decide) (by decide)

/-- C4: GET of a non-existent product id, any integer including zero and
    negative, yields the 400 not-found envelope with null data, and GET of an
    existing id yields the 200 found envelope carrying the serialized
    product. -/
theorem C4_showProduct_spec (db : DB) (id : Int) :
    (db.products.find? (fun p => p.id == id) = none →
      showProduct db id = .response
        { status := "BadRequest", code := 400
        , message := messagesRecordNotFound "product" id, error := none, data := none }) ∧
    (∀ p, db.products.find? (fun q => q.id == id) = some p →
      showProduct db id = .response
        { status := "OK", code := 200
        , message := messagesRecordFound "product", error := none
        , data := some (dumpProduct db p) }) := by
  constructor
  · intro h
    simp [showProduct, h, MakeResponse]
  · intro p hp
    simp [showProduct, hp, MakeResponse]

/-- C4 witness: the not-found branch at id 0 on the empty store. -/
theorem C4_witness :
    showProduct dbEmpty 0 = .response
      { status := "BadRequest", code := 400
      , message := messagesRecordNotFound "product" 0, error := none, data := none } :=
  (C4_showProduct_spec dbEmpty 0).1 rfl

/-- C5: deleting the existing product with id 1 physically removes the row
    and returns the 200 envelope with null data, but the message reads
    {id}has with no space between the quoted id and the word has, unlike the
    message the claim states. -/
theorem C5_delete_message_divergence :
    (destroyProduct dbOne 1).1.products = [] ∧
    (destroyProduct dbOne 1).2 = .response
      { status := "OK", code := 200
      , message := "The product with id " ++ squote ++ "1" ++ squote
          ++ "has been deleted successfully"
      , error := none, data := none } := by
  constructor <;> rfl

/-- C6: updating the existing product with id 1 never returns the 200
    envelope and never commits: the handler passes the serialized dict,
    whose keys include the non-column relationship field unit_measures, to
    the query-level update, which raises, so the exception escapes and the
    database is left unchanged. -/
theorem C6_update_always_raises :
    (updateProduct dbOne 1 { name := "B", price := 3, unit_measure_id := 1 }).2
      = .raised PyExn.invalidRequestError ∧
    (updateProduct dbOne 1 { name := "B", price := 3, unit_measure_id := 1 }).1 = dbOne := by
  constructor <;> rfl

/-- C1 counterexample: a store with one matching product, queried with offset
    5 and default limit and search, reports total_records 0 although the
    number of matching products is 1, because the count query only runs
    inside the loop over the returned page. -/
theorem C1_counterexample :
    (indexProductsResponse dbOne (some 5) none none).total_records = 0 ∧
    (matchingProducts dbOne "").length = 1 := by decide

/-- C1 amended: the data list length is min(limit, N - offset) clamped at 0,
    while total_records equals N only when the returned page is nonempty and
    is 0 when the page is empty. -/
theorem C1_pagination_amended (db : DB) (offsetParam limitParam : Option Nat)
    (searchParam : Option String) :
    (indexProductsResponse db offsetParam limitParam searchParam).data.length
      = min (limitParam.getD 10)
          ((matchingProducts db (searchParam.getD "")).length - offsetParam.getD 0) ∧
    (indexProductsResponse db offsetParam limitParam searchParam).total_records
      = if (indexProductsResponse db offsetParam limitParam searchParam).data.isEmpty
        then 0
        else (matchingProducts db (searchParam.getD "")).length := by
  have hdata : (indexProductsResponse db offsetParam limitParam searchParam).data
      = (((matchingProducts db (searchParam.getD "")).drop (offsetParam.getD 0)).take
          (limitParam.getD 10)).map (dumpProduct db) := by
    simp [indexProductsResponse, MakeResponsePaginate, indexLoop_fst]
  have htot : (indexProductsResponse db offsetParam limitParam searchParam).total_records
      = if (((matchingProducts db (searchParam.getD "")).drop (offsetParam.getD 0)).take
            (limitParam.getD 10)).isEmpty
        then 0 else (matchingProducts db (searchParam.getD "")).length := by
    simp [indexProductsResponse, MakeResponsePaginate, indexLoop_snd]
  constructor
  · rw [hdata]
    simp [List.length_map, List.length_take, List.length_drop]
  · rw [htot, hdata]
    simp [List.isEmpty_iff]

/-- C2 counterexample: a create request whose name collides with a stored
    product makes the flush raise; the exception is not a KeyError, so the
    handler does not return an envelope. -/
theorem C2_counterexample :
    isEnvelopeB (storeProduct dbOne { name := "A", price := 2, unit_measure_id := 1 }).2
      = false := rfl

/-- C2 amended: get and delete always return an envelope, and list returns
    an envelope whenever the request carries a query parameter dict, but a
    list request with no query string at all raises an uncaught
    AttributeError and returns no envelope; create returns an envelope
    whenever the flush does not violate the unique name or foreign key
    constraint, update returns an envelope whenever the id does not exist,
    and on every other path these two handlers terminate with an uncaught
    raised exception rather than an envelope. -/
theorem C2_envelope_amended (db : DB) (qp : QueryParams) (i : Int) (pl : ProductPayload) :
    isEnvelopeB (indexProducts db (some qp)) = true ∧
    isEnvelopeB (showProduct db i) = true ∧
    isEnvelopeB (destroyProduct db i).2 = true ∧
    (db.products.any (fun p => p.name == pl.name) = false →
      (lookupUnitMeasure db pl.unit_measure_id).isNone = false →
      isEnvelopeB (storeProduct db pl).2 = true) ∧
    (db.products.find? (fun p => p.id == i) = none →
      isEnvelopeB (updateProduct db i pl).2 = true) ∧
    ((storeProduct db pl).2 = .raised PyExn.integrityError ∨
      isEnvelopeB (storeProduct db pl).2 = true) ∧
    ((updateProduct db i pl).2 = .raised PyExn.invalidRequestError ∨
      isEnvelopeB (updateProduct db i pl).2 = true) ∧
    indexProducts db none = .raised PyExn.attributeError := by
  refine ⟨rfl, ?_, ?_, ?_, ?_, ?_, ?_, rfl⟩
  · cases hfind : db.products.find? (fun p => p.id == i) <;>
      simp [showProduct, hfind, isEnvelopeB]
  · cases hfind : db.products.find? (fun p => p.id == i) <;>
      simp [destroyProduct, hfind, isEnvelopeB]
  · intro h1 h2
    simp [storeProduct, storeProductBody, sessionFlushAdd, h1, h2, tryExceptKeyError,
      isEnvelopeB]
  · intro h
    simp [updateProduct, updateProductBody, h, tryExceptKeyError, isEnvelopeB]
  · by_cases h1 : db.products.any (fun p => p.name == pl.name) = true
    · left
      simp [storeProduct, storeProductBody, sessionFlushAdd, h1, tryExceptKeyError]
    · have h1f : db.products.any (fun p => p.name == pl.name) = false :=
        Bool.eq_false_iff.mpr h1
      by_cases h2 : (lookupUnitMeasure db pl.unit_measure_id).isNone = true
      · left
        simp [storeProduct, storeProductBody, sessionFlushAdd, h1f, h2, tryExceptKeyError]
      · have h2f : (lookupUnitMeasure db pl.unit_measure_id).isNone = false :=
          Bool.eq_false_iff.mpr h2
        right
        simp [storeProduct, storeProductBody, sessionFlushAdd, h1f, h2f, tryExceptKeyError,
          isEnvelopeB]
  · cases hfind : db.products.find? (fun p => p.id == i) with
    | none =>
        right
        simp [updateProduct, updateProductBody, hfind, tryExceptKeyError, isEnvelopeB]
    | some p =>
        left
        simp [updateProduct, updateProductBody, hfind, bulkUpdateKeysOk_schemaFields,
          tryExceptKeyError]

/-- C2 witness: the amended statement applied on the empty store, where the
    create and update paths both produce envelopes. -/
theorem C2_witness :
    isEnvelopeB (storeProduct dbEmpty { name := "A", price := 2, unit_measure_id := 1 }).2
        = true ∧
    isEnvelopeB (updateProduct dbEmpty 7 { name := "A", price := 2, unit_measure_id := 1 }).2
        = true :=
  ⟨(C2_envelope_amended dbEmpty { offset := none, limit := none, search := none } 7
      { name := "A", price := 2, unit_measure_id := 1 }).2.2.2.1 rfl rfl,
   (C2_envelope_amended dbEmpty { offset := none, limit := none, search := none } 7
      { name := "A", price := 2, unit_measure_id := 1 }).2.2.2.2.1 rfl⟩

/-- C7: deleting an existing product succeeds with 200, a subsequent GET of
    the same id returns the 400 not-found envelope, and a second DELETE of
    the same id also returns the 400 not-found envelope without touching the
    store. -/
theorem C7_delete_idempotent (db : DB) (i : Int) (p : Product)
    (h : db.products.find? (fun q => q.id == i) = some p) :
    (destroyProduct db i).2 = .response
      { status := "OK", code := 200, message := messagesRecordDeleted "product" i
      , error := none, data := none } ∧
    showProduct (destroyProduct db i).1 i = .response
      { status := "BadRequest", code := 400, message := messagesRecordNotFound "product" i
      , error := none, data := none } ∧
    (destroyProduct (destroyProduct db i).1 i).2 = .response
      { status := "BadRequest", code := 400, message := messagesRecordNotFound "product" i
      , error := none, data := none } ∧
    (destroyProduct (destroyProduct db i).1 i).1 = (destroyProduct db i).1 := by
  have hfind : (db.products.filter (fun q => ! (q.id == i))).find? (fun q => q.id == i)
      = none := by
    rw [List.find?_eq_none]
    intro x hx
    have hmem := (List.mem_filter.mp hx).2
    simp at hmem
    simp [hmem]
  have hdb : (destroyProduct db i).1
      = { db with products := db.products.filter (fun q => ! (q.id == i)) } := by
    simp [destroyProduct, h]
  refine ⟨?_, ?_, ?_, ?_⟩
  · simp [destroyProduct, h, MakeResponse]
  · rw [hdb]
    simp [showProduct, hfind, MakeResponse]
  · rw [hdb]
    simp [destroyProduct, hfind, MakeResponse]
  · rw [hdb]
    simp [destroyProduct, hfind]

/-- C7 witness: the delete and re-query sequence at id 1 on the one-product
    store. -/
theorem C7_witness :
    (destroyProduct dbOne 1).2 = .response
      { status := "OK", code := 200, message := messagesRecordDeleted "product" 1
      , error := none, data := none } ∧
    showProduct (destroyProduct dbOne 1).1 1 = .response
      { status := "BadRequest", code := 400, message := messagesRecordNotFound "product" 1
      , error := none, data := none } ∧
    (destroyProduct (destroyProduct dbOne 1).1 1).2 = .response
      { status := "BadRequest", code := 400, message := messagesRecordNotFound "product" 1
      , error := none, data := none } ∧
    (destroyProduct (destroyProduct dbOne 1).1 1).1 = (destroyProduct dbOne 1).1 :=
  C7_delete_idempotent dbOne 1 productA rfl

/-- C8: a create whose name is fresh and whose unit measure exists appends a
    new row carrying the generated id to the products table and returns the
    200 envelope with the created-successfully message and the serialized
    created record, id included, as data. -/
theorem C8_storeProduct_spec (db : DB) (pl : ProductPayload)
    (hname : db.products.any (fun p => p.name == pl.name) = false)
    (hum : (lookupUnitMeasure db pl.unit_measure_id).isNone = false) :
    (storeProduct db pl).1.products
        = db.products ++ [{ id := db.nextProductId, name := pl.name, price := pl.price
                          , unit_measure_id := pl.unit_measure_id }] ∧
    (storeProduct db pl).2 = .response
      { status := "OK", code := 200
      , message := "The product has been created successfully"
      , error := none
      , data := some
          { id := db.nextProductId, name := pl.name, price := pl.price
          , unit_measure_id := pl.unit_measure_id
          , unit_measures := (lookupUnitMeasure db pl.unit_measure_id).map
              dumpUnitMeasure } } := by
  have hflush : sessionFlushAdd db pl.name pl.unit_measure_id
      = Except.ok db.nextProductId := by
    unfold sessionFlushAdd
    rw [hname, hum]
    simp
  constructor
  · simp [storeProduct, storeProductBody, hflush, tryExceptKeyError]
  · simp [storeProduct, storeProductBody, hflush, tryExceptKeyError,
      dumpProduct, lookupUnitMeasure, MakeResponse, messagesRecordCreated_product]

/-- C8 witness: creating the Flour product on the empty store. -/
theorem C8_witness :
    (storeProduct dbEmpty { name := "Flour", price := 2.5, unit_measure_id := 1 }).1.products
        = dbEmpty.products ++ [{ id := dbEmpty.nextProductId, name := "Flour", price := 2.5
                               , unit_measure_id := 1 }] ∧
    (storeProduct dbEmpty { name := "Flour", price := 2.5, unit_measure_id := 1 }).2
        = .response
      { status := "OK", code := 200
      , message := "The product has been created successfully"
      , error := none
      , data := some
          { id := dbEmpty.nextProductId, name := "Flour", price := 2.5
          , unit_measure_id := 1
          , unit_measures := (lookupUnitMeasure dbEmpty 1).map dumpUnitMeasure } } :=
  C8_storeProduct_spec dbEmpty { name := "Flour", price := 2.5, unit_measure_id := 1 } rfl rfl

/-- C9 counterexample: a GET /products request with no query string at all
    has query_params None, so the handler raises an uncaught AttributeError
    and returns no envelope, not a 200 response. -/
theorem C9_counterexample :
    indexProducts dbOne none = .raised PyExn.attributeError ∧
    isEnvelopeB (indexProducts dbOne none) = false := ⟨rfl, rfl⟩

/-- C9 amended: when the request carries a query parameter dict, offset,
    limit and search are individually optional with defaults 0, 10 and the
    empty string, and for every store and every such dict, empty result sets
    included, the handler returns the paginated envelope with status OK,
    code 200 and the products-found message; a request with no query string
    at all instead raises an uncaught AttributeError. -/
theorem C9_index_defaults (db : DB) :
    indexProducts db (some { offset := none, limit := none, search := none })
      = indexProducts db (some { offset := some 0, limit := some 10, search := some "" }) ∧
    ∀ qp : QueryParams,
      indexProducts db (some qp)
        = .paginate (indexProductsResponse db qp.offset qp.limit qp.search) ∧
      (indexProductsResponse db qp.offset qp.limit qp.search).status = "OK" ∧
      (indexProductsResponse db qp.offset qp.limit qp.search).code = 200 ∧
      (indexProductsResponse db qp.offset qp.limit qp.search).message
        = "The products has been found successfully" ∧
      (indexProductsResponse db qp.offset qp.limit qp.search).error = none :=
  ⟨rfl, fun _ => ⟨rfl, rfl, rfl, rfl, rfl⟩⟩

end ProductsService
